import Mathlib

/-!
Verification of the prescription-validation engine of the JIA-Connect
repository.

The definitions below are a shallow embedding of the Python sources:

* `ai_backend/agents/tripulacion.py` — `ejecutar_validacion_medica`, the
  regex-based extraction of drug / dose / frequency, the threshold parser
  over the retrieved evidence, the contraindication scan and the decision
  rules (APROBADA / ALERTA / RECHAZADA);
* `ai_backend/tools/mis_herramientas.py` — `ProcesarRecetaTool._run`, the
  result structurer;
* `ai_engine/auditor.py` — `AgenteAuditor.validar_pauta`, the JSON-object
  extraction from an LLM completion.

Modelling conventions:

* Python strings are `List Char`; Python floats are modelled exactly as `ℚ`
  (every numeric literal the pipeline parses is a terminating decimal);
  `f"{x:.0f}"` is modelled by rounding half-to-even, which agrees with
  CPython on these exactly-representable values.
* The external RAG store and the LLM are black boxes: the evidence text and
  the completion text are parameters of the embedded functions, exactly the
  strings the Python code receives from them.
* Each `re` pattern of the source is hand-compiled to an anchored matcher
  run at every start position (leftmost match, `re.search` semantics).  In
  every pattern of this code base a greedy token is followed by a token that
  cannot match the same characters, so maximal munch plus the explicit
  alternation order gives exactly Python's backtracking behaviour; the
  alternation and optional groups are compiled with `Option.orElse` in
  continuation-passing style, preserving Python's trial order.
-/

namespace JIA

/-! ## Character classes of the Python regexes -/

/-- Python `str.lower` restricted to the alphabet this code base uses
(ASCII plus the Spanish accented letters appearing in the sources). -/
def toLowerCh (c : Char) : Char :=
  if 'A' ≤ c ∧ c ≤ 'Z' then Char.ofNat (c.toNat + 32)
  else if c = 'Á' then 'á'
  else if c = 'É' then 'é'
  else if c = 'Í' then 'í'
  else if c = 'Ó' then 'ó'
  else if c = 'Ú' then 'ú'
  else if c = 'Ñ' then 'ñ'
  else c

/-- Upper-casing used by Python `str.capitalize` on the first character. -/
def toUpperCh (c : Char) : Char :=
  if 'a' ≤ c ∧ c ≤ 'z' then Char.ofNat (c.toNat - 32)
  else if c = 'á' then 'Á'
  else if c = 'é' then 'É'
  else if c = 'í' then 'Í'
  else if c = 'ó' then 'Ó'
  else if c = 'ú' then 'Ú'
  else if c = 'ñ' then 'Ñ'
  else c

/-- The regex whitespace class `\s` (and the characters Python `str.strip`
removes) for the texts involved. -/
def isWsCh (c : Char) : Bool :=
  c = ' ' ∨ c = '\t' ∨ c = '\n' ∨ c = '\r' ∨ c = Char.ofNat 11 ∨ c = Char.ofNat 12

/-- The letter class `[A-Za-zÁÉÍÓÚáéíóúñÑ]` of the drug-word fallback regex
(tripulacion.py line 119). -/
def isLetterES (c : Char) : Bool :=
  ('A' ≤ c ∧ c ≤ 'Z') ∨ ('a' ≤ c ∧ c ≤ 'z') ∨
    c ∈ ['Á', 'É', 'Í', 'Ó', 'Ú', 'á', 'é', 'í', 'ó', 'ú', 'ñ', 'Ñ']

/-- Word characters for the `\b` boundaries of that regex, restricted to the
alphabet in use: letters, digits and underscore. -/
def isWordCh (c : Char) : Bool :=
  isLetterES c ∨ c.isDigit ∨ c = '_'

/-- `str.lower` on a whole string. -/
def lowerStr (l : List Char) : List Char := l.map toLowerCh

/-- Python `needle in haystack`: substring containment. -/
def hasInfix (needle : List Char) : List Char → Bool
  | [] => needle.isPrefixOf []
  | c :: t => needle.isPrefixOf (c :: t) || hasInfix needle t

/-- Python `str.strip()`. -/
def stripWs (l : List Char) : List Char :=
  ((l.dropWhile isWsCh).reverse.dropWhile isWsCh).reverse

/-- Python slice `l[a:b]` for clamped nonnegative bounds (`a` already holds
`max 0 _`; `List.take` clamps like Python's `min len _`). -/
def sliceN (l : List Char) (a b : Nat) : List Char := (l.take b).drop a

/-! ## Anchored parsing primitives for the hand-compiled regexes -/

/-- Consume a literal, comparing case-insensitively (source patterns either
carry `re.IGNORECASE` or are run on text lower-cased beforehand). -/
def eatLit : List Char → List Char → Option (List Char)
  | [], s => some s
  | _ :: _, [] => none
  | c :: cs, x :: xs => if toLowerCh x = toLowerCh c then eatLit cs xs else none

/-- Consume one character of a regex character class such as `[áa]`. -/
def eatClass (cls : List Char) : List Char → Option (List Char)
  | [] => none
  | x :: xs => if x ∈ cls then some xs else none

/-- `\s*` (maximal munch; every following token in these patterns rejects
whitespace, so no backtracking into the star is ever needed). -/
def dropWs (s : List Char) : List Char := s.dropWhile isWsCh

/-- `\s+`. -/
def eatWs1 : List Char → Option (List Char)
  | [] => none
  | x :: xs => if isWsCh x then some (dropWs xs) else none

/-- An optional literal such as `/?` or `\(?` whose follower can never match
the literal's character, so consume-if-present is exact. -/
def optEat (lit : List Char) (s : List Char) : List Char := (eatLit lit s).getD s

/-- An optional keyword group `(?:kw\s*)?` followed by `cont`, with Python's
trial order: first with the keyword, then without. -/
def optKw (kw : List Char) (cont : List Char → Option α) (t : List Char) : Option α :=
  (do cont (dropWs (← eatLit kw t))) <|> cont t

/-- Alternation `(?:a|b|…)` followed by `cont`, in Python's trial order. -/
def eatAltK (alts : List (List Char)) (cont : List Char → Option α) (s : List Char) : Option α :=
  match alts with
  | [] => none
  | a :: rest => (do cont (← eatLit a s)) <|> eatAltK rest cont s

/-- `\d+` with maximal munch: value, digit count and rest. -/
def eatDigits (s : List Char) : Option (Nat × Nat × List Char) :=
  let ds := s.takeWhile Char.isDigit
  if ds.isEmpty then none
  else some (ds.foldl (fun a c => 10 * a + (c.toNat - '0'.toNat)) 0,
             ds.length, s.dropWhile Char.isDigit)

/-- The numeric group `(\d+(?:[.,]\d+)?)` of every dose pattern, converted as
Python `float(g.replace(",", "."))`.  In all patterns of the source the
group is followed by a token matching neither a digit nor a separator, so
the greedy match is exactly the maximal munch. -/
def eatNumber (s : List Char) : Option (ℚ × List Char) := do
  let (ip, _, r1) ← eatDigits s
  match r1 with
  | sep :: r2 =>
    if sep = '.' ∨ sep = ',' then
      match eatDigits r2 with
      | some (fp, k, r3) => pure ((ip : ℚ) + (fp : ℚ) / ((10 : ℚ) ^ k), r3)
      | none => pure ((ip : ℚ), r1)
    else pure ((ip : ℚ), r1)
  | [] => pure ((ip : ℚ), [])

/-- `re.search`: try the anchored matcher at every position, leftmost success
wins; returns the match start index and the matcher's payload. -/
def searchAux (m : List Char → Option α) : Nat → List Char → Option (Nat × α)
  | i, [] => (m []).map (fun a => (i, a))
  | i, s@(_ :: t) =>
    match m s with
    | some a => some (i, a)
    | none => searchAux m (i + 1) t

/-- Leftmost regex search over a whole string. -/
def search (m : List Char → Option α) (s : List Char) : Option (Nat × α) :=
  searchAux m 0 s

/-! ## PASO 1: drug extraction (tripulacion.py lines 101-123) -/

/-- The curated list `farmacos_conocidos`. -/
def farmacosConocidos : List String :=
  ["ibuprofeno", "metotrexato", "metotrexate", "naproxeno", "paracetamol",
   "prednisona", "adalimumab", "etanercept", "tocilizumab", "sulfasalazina",
   "leflunomida", "hidroxicloroquina", "azatioprina", "ciclosporina", "infliximab"]

/-- Python `str.capitalize`: first character upper-cased, the rest lower-cased. -/
def capitalizeStr : List Char → List Char
  | [] => []
  | c :: t => toUpperCh c :: t.map toLowerCh

/-- Anchored attempt of `\b([A-Za-zÁÉÍÓÚáéíóúñÑ]{4,})\b` at one position:
word boundary before, a maximal run of letters of length at least 4, word
boundary after.  A shorter run than the maximal one always ends on a letter
and hence fails the trailing `\b`, so greedy maximal munch is exact. -/
def matchWordAt (prev : Option Char) (s : List Char) : Option (List Char) :=
  let boundaryBefore : Bool := match prev with | none => true | some p => !(isWordCh p)
  let run := s.takeWhile isLetterES
  let boundaryAfter : Bool :=
    match s.dropWhile isLetterES with | [] => true | r :: _ => !(isWordCh r)
  if boundaryBefore && decide (4 ≤ run.length) && boundaryAfter then some run else none

/-- `re.search` for the word-fallback pattern, threading the previous
character for the `\b` test. -/
def searchWordAux (prev : Option Char) : List Char → Option (List Char)
  | [] => none
  | s@(c :: t) =>
    match matchWordAt prev s with
    | some w => some w
    | none => searchWordAux (some c) t

/-- First word of at least four letters in the text (the fallback regex of
line 119). -/
def firstLongWord (texto : List Char) : Option (List Char) := searchWordAux none texto

/-- Lines 107-123: first known substance that is a substring of the
lower-cased text wins, `metotrexate` is normalised, otherwise the first
long word capitalised, otherwise `Desconocido`. -/
def extraerFarmaco (texto : List Char) : List Char :=
  let tl := lowerStr texto
  match farmacosConocidos.find? (fun f => hasInfix f.toList tl) with
  | some f => if f = "metotrexate" then "Metotrexato".toList else capitalizeStr f.toList
  | none =>
    match firstLongWord texto with
    | some w => capitalizeStr w
    | none => "Desconocido".toList

/-! ## PASO 2: dose extraction (lines 129-138) -/

/-- Anchored `(\d+(?:[.,]\d+)?)\s*mg\s*/\s*kg` (IGNORECASE). -/
def matchMgKgAt (s : List Char) : Option ℚ := do
  let (v, r) ← eatNumber s
  let r ← eatLit "mg".toList (dropWs r)
  let r ← eatLit "/".toList (dropWs r)
  let _ ← eatLit "kg".toList (dropWs r)
  pure v

/-- `dosis_mg_kg`: first `mg/kg` dose in the text. -/
def extraerDosisMgKg (texto : List Char) : Option ℚ :=
  (search matchMgKgAt texto).map (·.2)

/-- The negative lookahead `(?!\s*/\s*kg)` of the absolute-dose pattern. -/
def lookaheadKg (s : List Char) : Bool :=
  match eatLit "/".toList (dropWs s) with
  | none => false
  | some r => (eatLit "kg".toList (dropWs r)).isSome

/-- Anchored `(\d+(?:[.,]\d+)?)\s*mg(?!\s*/\s*kg)` (IGNORECASE). -/
def matchMgAbsAt (s : List Char) : Option ℚ := do
  let (v, r) ← eatNumber s
  let r ← eatLit "mg".toList (dropWs r)
  if lookaheadKg r then none else pure v

/-- `dosis_absoluta`: first `mg` dose not followed by `/kg`. -/
def extraerDosisAbsoluta (texto : List Char) : Option ℚ :=
  (search matchMgAbsAt texto).map (·.2)

/-! ## PASO 3: frequency extraction (lines 143-156) -/

/-- Anchored `cada\s+(\d+)\s*h` (IGNORECASE). -/
def matchCadaAt (s : List Char) : Option Nat := do
  let r ← eatLit "cada".toList s
  let r ← eatWs1 r
  let (n, _, r) ← eatDigits r
  let _ ← eatLit "h".toList (dropWs r)
  pure n

/-- Frequency text and hours: `cada N h`, else `semanal` (168h), else
`diario`/`diaria` (24h), else blank. -/
def extraerFrecuencia (texto : List Char) : List Char × Option Nat :=
  let tl := lowerStr texto
  match search matchCadaAt texto with
  | some (_, n) => ("cada ".toList ++ (toString n).toList ++ " horas".toList, some n)
  | none =>
    if hasInfix "semanal".toList tl then ("semanal".toList, some 168)
    else if hasInfix "diario".toList tl || hasInfix "diaria".toList tl then
      ("diario".toList, some 24)
    else ([], none)

/-- The fields PASO 1-3 extract from the free-text prescription. -/
structure Extraccion where
  farmaco : List Char
  dosis_mg_kg : Option ℚ
  dosis_absoluta : Option ℚ
  frecuencia_texto : List Char
  frecuencia_horas : Option Nat

/-- PASO 1-3 together. -/
def extraerCampos (texto : List Char) : Extraccion :=
  { farmaco := extraerFarmaco texto
    dosis_mg_kg := extraerDosisMgKg texto
    dosis_absoluta := extraerDosisAbsoluta texto
    frecuencia_texto := (extraerFrecuencia texto).1
    frecuencia_horas := (extraerFrecuencia texto).2 }

/-! ## PASO 5: threshold parser (lines 202-233)

Each matcher returns the list of captured numeric groups, in group order,
mirroring `match.groups()`. -/

/-- `NUM\s*mg` tail shared by several patterns. -/
def numMg (t : List Char) : Option (List ℚ) := do
  let (v, r) ← eatNumber t
  let _ ← eatLit "mg".toList (dropWs r)
  pure [v]

/-- `NUM\s*mg\s*/?\s*semana` tail. -/
def numMgSemana (t : List Char) : Option (List ℚ) := do
  let (v, r) ← eatNumber t
  let r ← eatLit "mg".toList (dropWs r)
  let r := optEat "/".toList (dropWs r)
  let _ ← eatLit "semana".toList (dropWs r)
  pure [v]

/-- `menos\s+de\s+(\d+(?:[.,]\d+)?)\s*mg\s*/?\s*semana`. -/
def matchP1At (s : List Char) : Option (List ℚ) := do
  let r ← eatLit "menos".toList s
  let r ← eatWs1 r
  let r ← eatLit "de".toList r
  let r ← eatWs1 r
  numMgSemana r

/-- `dosis\s+bajas\s*\(?menos\s+de\s+(\d+(?:[.,]\d+)?)\s*mg`. -/
def matchP2At (s : List Char) : Option (List ℚ) := do
  let r ← eatLit "dosis".toList s
  let r ← eatWs1 r
  let r ← eatLit "bajas".toList r
  let r := optEat "(".toList (dropWs r)
  let r ← eatLit "menos".toList r
  let r ← eatWs1 r
  let r ← eatLit "de".toList r
  let r ← eatWs1 r
  numMg r

/-- `dosis\s*m[áa]xima\s*(?:semanal\s*)?(?:de\s*)?(\d+(?:[.,]\d+)?)\s*mg`. -/
def matchP3At (s : List Char) : Option (List ℚ) := do
  let r ← eatLit "dosis".toList s
  let r ← eatLit "m".toList (dropWs r)
  let r ← eatClass ['á', 'a'] r
  let r ← eatLit "xima".toList r
  optKw "semanal".toList (optKw "de".toList numMg) (dropWs r)

/-- `m[áa]ximo\s*(?:de\s*)?(\d+(?:[.,]\d+)?)\s*mg\s*/?\s*semana`. -/
def matchP4At (s : List Char) : Option (List ℚ) := do
  let r ← eatLit "m".toList s
  let r ← eatClass ['á', 'a'] r
  let r ← eatLit "ximo".toList r
  optKw "de".toList numMgSemana (dropWs r)

/-- `dosis\s*m[áa]xima\s*(?:diaria\s*)?(?:de\s*)?(\d+(?:[.,]\d+)?)\s*mg`. -/
def matchP5At (s : List Char) : Option (List ℚ) := do
  let r ← eatLit "dosis".toList s
  let r ← eatLit "m".toList (dropWs r)
  let r ← eatClass ['á', 'a'] r
  let r ← eatLit "xima".toList r
  optKw "diaria".toList (optKw "de".toList numMg) (dropWs r)

/-- `no\s*(?:debe\s*)?exceder\s*(?:de\s*)?(\d+(?:[.,]\d+)?)\s*mg`. -/
def matchP6At (s : List Char) : Option (List ℚ) := do
  let r ← eatLit "no".toList s
  optKw "debe".toList
    (fun t => do
      let u ← eatLit "exceder".toList t
      optKw "de".toList numMg (dropWs u))
    (dropWs r)

/-- `hasta\s*(\d+(?:[.,]\d+)?)\s*mg(?:\s*/\s*d[íi]a)?`; the trailing optional
group captures nothing and cannot make a match fail, so it is omitted. -/
def matchP7At (s : List Char) : Option (List ℚ) := do
  let r ← eatLit "hasta".toList s
  numMg (dropWs r)

/-- `(\d+(?:[.,]\d+)?)\s*mg\s*/\s*kg\s*/\s*d[íi]a`. -/
def matchP8At (s : List Char) : Option (List ℚ) := do
  let (v, r) ← eatNumber s
  let r ← eatLit "mg".toList (dropWs r)
  let r ← eatLit "/".toList (dropWs r)
  let r ← eatLit "kg".toList (dropWs r)
  let r ← eatLit "/".toList (dropWs r)
  let r ← eatLit "d".toList (dropWs r)
  let r ← eatClass ['í', 'i'] r
  let _ ← eatLit "a".toList r
  pure [v]

/-- `(\d+(?:[.,]\d+)?)\s*-\s*(\d+(?:[.,]\d+)?)\s*mg\s*/\s*semana`. -/
def matchP9At (s : List Char) : Option (List ℚ) := do
  let (v1, r) ← eatNumber s
  let r ← eatLit "-".toList (dropWs r)
  let (v2, r) ← eatNumber (dropWs r)
  let r ← eatLit "mg".toList (dropWs r)
  let r ← eatLit "/".toList (dropWs r)
  let _ ← eatLit "semana".toList (dropWs r)
  pure [v1, v2]

/-- The ordered table `patrones_dosis_max` (lines 208-221). -/
def patronesDosisMax : List ((List Char → Option (List ℚ)) × List Char) :=
  [(matchP1At, "semanal".toList), (matchP2At, "semanal".toList),
   (matchP3At, "semanal".toList), (matchP4At, "semanal".toList),
   (matchP5At, "diario".toList), (matchP6At, "diario".toList),
   (matchP7At, "diario".toList), (matchP8At, "mg_kg".toList),
   (matchP9At, "semanal".toList)]

/-- The loop of lines 223-233: first pattern with a match and a nonempty
group list wins; the value is the last captured group (for the range
pattern, the upper bound). -/
def extraerDosisMaxAux :
    List ((List Char → Option (List ℚ)) × List Char) → List Char → Option (ℚ × List Char)
  | [], _ => none
  | (m, tipo) :: rest, ev =>
    match search m ev with
    | some (_, grupos) =>
      match grupos.getLast? with
      | some valor => some (valor, tipo)
      | none => extraerDosisMaxAux rest ev
    | none => extraerDosisMaxAux rest ev

/-- `dosis_max_guia` and its unit class, from the lower-cased evidence. -/
def extraerDosisMax (evLower : List Char) : Option (ℚ × List Char) :=
  extraerDosisMaxAux patronesDosisMax evLower

/-! ## PASO 6: contraindication scan (lines 242-258) -/

/-- `contraindicado\s+(?:en|para)\s+(?:artritis|aij|niños|juvenil)`. -/
def matchContra1At (s : List Char) : Option Unit := do
  let r ← eatLit "contraindicado".toList s
  let r ← eatWs1 r
  eatAltK ["en".toList, "para".toList]
    (fun r => do
      let r ← eatWs1 r
      eatAltK ["artritis".toList, "aij".toList, "niños".toList, "juvenil".toList]
        (fun _ => pure ()) r)
    r

/-- `no\s+(?:indicado|recomendado)\s+(?:en|para)\s+(?:artritis|aij|niños)`. -/
def matchContra2At (s : List Char) : Option Unit := do
  let r ← eatLit "no".toList s
  let r ← eatWs1 r
  eatAltK ["indicado".toList, "recomendado".toList]
    (fun r => do
      let r ← eatWs1 r
      eatAltK ["en".toList, "para".toList]
        (fun r => do
          let r ← eatWs1 r
          eatAltK ["artritis".toList, "aij".toList, "niños".toList] (fun _ => pure ()) r)
        r)
    r

/-- `no\s+usar\s+en\s+(?:artritis|aij|niños)`. -/
def matchContra3At (s : List Char) : Option Unit := do
  let r ← eatLit "no".toList s
  let r ← eatWs1 r
  let r ← eatLit "usar".toList r
  let r ← eatWs1 r
  let r ← eatLit "en".toList r
  let r ← eatWs1 r
  eatAltK ["artritis".toList, "aij".toList, "niños".toList] (fun _ => pure ()) r

/-- The loop of lines 252-258: first pattern with a match wins; the result
is `match.start()` of that pattern's leftmost match. -/
def buscarContra (evLower : List Char) : Option Nat :=
  match search matchContra1At evLower with
  | some (i, _) => some i
  | none =>
    match search matchContra2At evLower with
    | some (i, _) => some i
    | none => (search matchContra3At evLower).map (·.1)

/-! ## Number formatting -/

/-- Rounding half to even, the behaviour of CPython `f"{x:.0f}"` on the
exactly-representable values this pipeline produces. -/
def roundHalfEven (q : ℚ) : ℤ :=
  let f := ⌊q⌋
  let r := q - (f : ℚ)
  if r < 1/2 then f
  else if 1/2 < r then f + 1
  else if f % 2 = 0 then f else f + 1

/-- Model of `f"{x:.0f}"`. -/
def fmt0 (q : ℚ) : List Char := (toString (roundHalfEven q)).toList

/-- Fractional-digit expansion, for `f"{x}"` on a terminating decimal. -/
def fracDigitsAux : Nat → ℚ → List Char
  | 0, _ => []
  | fuel + 1, q =>
    if q = 0 then []
    else
      Char.ofNat ('0'.toNat + (⌊q * 10⌋).toNat) ::
        fracDigitsAux fuel (q * 10 - (⌊q * 10⌋ : ℚ))

/-- Model of Python `f"{x}"` (shortest float repr) for the nonnegative
terminating decimals parsed from the guides. -/
def pyFloatRepr (q : ℚ) : List Char :=
  if q - (⌊q⌋ : ℚ) = 0 then (toString ⌊q⌋).toList ++ ".0".toList
  else (toString ⌊q⌋).toList ++ '.' :: fracDigitsAux 17 (q - (⌊q⌋ : ℚ))

/-- Line 231: `f"{valor} mg/{tipo if tipo != 'diario' else 'día'}"`. -/
def dosisMaxTexto (valor : ℚ) (tipo : List Char) : List Char :=
  pyFloatRepr valor ++ " mg/".toList ++
    (if tipo = "diario".toList then "día".toList else tipo)

/-! ## PASO 6/7: decision engine and displayed dose -/

/-- Python truthiness of a `float | None` value: `None` and `0.0` are falsy. -/
def pyTruthy (o : Option ℚ) : Bool :=
  match o with
  | some x => x != 0
  | none => false

/-- Lines 270-275 (and the identical lines 315-319):
`dosis_mg_kg * peso` when both are truthy, else `dosis_absoluta` when
truthy, else `None`. -/
def dosisPrescrita (dosis_mg_kg dosis_absoluta : Option ℚ) (peso : ℚ) : Option ℚ :=
  if pyTruthy dosis_mg_kg && (peso != 0) then dosis_mg_kg.map (· * peso)
  else if pyTruthy dosis_absoluta then dosis_absoluta
  else none

/-- PASO 7 (lines 315-319), the `dosis_calculada` variable. -/
def dosisCalculada (dosis_mg_kg dosis_absoluta : Option ℚ) (peso : ℚ) : Option ℚ :=
  dosisPrescrita dosis_mg_kg dosis_absoluta peso

/-- The `es_aij` / `decision` / `razon` triple built by PASO 6. -/
structure DecisionInfo where
  es_aij : Bool
  decision : List Char
  razon : List Char
  deriving DecidableEq

/-- CASO 2 fallback (lines 288-292): threshold known, dose unverifiable. -/
def alertaNoVerificada (farmaco : List Char) (dmax : ℚ) : DecisionInfo :=
  { es_aij := true
    decision := "ALERTA".toList
    razon := "ℹ️ ".toList ++ farmaco ++ " indicado. Límite según guía: ".toList ++
      fmt0 dmax ++ " mg. No se pudo verificar la dosis prescrita.".toList }

/-- CASO 3 and CASO 4 (lines 294-310): no usable threshold. -/
def casosSinUmbral (farmaco evidencia evLower : List Char) : DecisionInfo :=
  if hasInfix "no se encontr".toList evLower || hasInfix "error".toList evLower ||
      (stripWs evidencia).isEmpty then
    { es_aij := false
      decision := "ALERTA".toList
      razon := "⚠️ No se encontró información de ".toList ++ farmaco ++
        " en las guías médicas. Verificar manualmente.".toList }
  else if hasInfix (lowerStr farmaco) evLower || hasInfix "artritis".toList evLower then
    { es_aij := true
      decision := "ALERTA".toList
      razon := "ℹ️ ".toList ++ farmaco ++
        " encontrado en guías pero no se pudo extraer dosis máxima. Evidencia: \x27".toList ++
        stripWs ((evidencia.take 300).map (fun c => if c = '\n' then ' ' else c)) ++
        "...\x27".toList }
  else
    { es_aij := false
      decision := "ALERTA".toList
      razon := "⚠️ No se encontró evidencia clara de ".toList ++ farmaco ++
        " para AIJ en las guías.".toList }

/-- CASO 2 comparison (lines 277-287). -/
def casoUmbral (farmaco : List Char) (dmax : ℚ) (tipo : List Char)
    (dosis_mg_kg dosis_absoluta : Option ℚ) (peso : ℚ) : DecisionInfo :=
  match dosisPrescrita dosis_mg_kg dosis_absoluta peso with
  | some dp =>
    if dp != 0 then
      if dmax ≤ dp then
        { es_aij := false
          decision := "RECHAZADA".toList
          razon := "⚠️ DOSIS EXCESIVA: Se prescribe ".toList ++ fmt0 dp ++
            " mg pero la guía indica límite de ".toList ++ fmt0 dmax ++ " mg (".toList ++
            dosisMaxTexto dmax tipo ++ "). Dosis ≥".toList ++ fmt0 dmax ++
            " mg se consideran ALTAS.".toList }
      else
        { es_aij := true
          decision := "APROBADA".toList
          razon := "✅ Dosis ".toList ++ fmt0 dp ++
            " mg dentro del rango seguro (límite: ".toList ++ fmt0 dmax ++
            " mg según guía).".toList }
    else alertaNoVerificada farmaco dmax
  | none => alertaNoVerificada farmaco dmax

/-- PASO 6 (lines 236-310): contraindication first, then threshold
comparison, then the no-usable-evidence cases.  `dosis_max_guia` is tested
with Python float truthiness (`elif dosis_max_guia:`). -/
def decidir (farmaco : List Char) (dosis_mg_kg dosis_absoluta : Option ℚ)
    (peso : ℚ) (evidencia : List Char) : DecisionInfo :=
  let evLower := lowerStr evidencia
  match buscarContra evLower with
  | some idx =>
    { es_aij := false
      decision := "RECHAZADA".toList
      razon := "⚠️ ".toList ++ farmaco ++
        " contraindicado para AIJ según la guía. Evidencia: \x27...".toList ++
        sliceN evidencia (idx - 30) (idx + 100) ++ "...\x27".toList }
  | none =>
    match extraerDosisMax evLower with
    | some (dmax, tipo) =>
      if dmax != 0 then casoUmbral farmaco dmax tipo dosis_mg_kg dosis_absoluta peso
      else casosSinUmbral farmaco evidencia evLower
    | none => casosSinUmbral farmaco evidencia evLower

/-! ## Result structurer: `ProcesarRecetaTool._run`
(mis_herramientas.py lines 222-275) -/

/-- The `analisis` section of the JSON the tool returns, plus the
`dosis_absoluta_mg` key that `ejecutar_validacion_medica` adds afterwards
(tripulacion.py lines 342-343). -/
structure AnalisisJson where
  farmaco : List Char
  dosis_calculada : List Char
  dosis_mg_kg_detectada : Option ℚ
  frecuencia : List Char
  frecuencia_horas : Option Nat
  dosis_absoluta_mg : Option ℚ := none
  deriving DecidableEq

/-- The `auditoria` section. -/
structure AuditoriaJson where
  es_aij : Bool
  razon : List Char
  deriving DecidableEq

/-- The JSON object the tool serialises. -/
structure ResultadoJson where
  estado : List Char
  decision : List Char
  analisis : AnalisisJson
  auditoria : AuditoriaJson
  deriving DecidableEq

/-- `ProcesarRecetaTool._run` (the `id_paciente` and `medico` arguments do
not appear in the output and are omitted).  The dose string is
`f"{peso * dosis_mg_kg:.0f} mg"` when a per-kg dose is present, else
`"N/D"`; `estado` is derived from `es_tratamiento_aij` alone. -/
def procesarReceta (farmaco : List Char) (peso : ℚ) (dosis_mg_kg : Option ℚ)
    (frecuencia_texto : List Char) (frecuencia_horas : Option Nat)
    (es_tratamiento_aij : Bool) (razon_decision decision : List Char) : ResultadoJson :=
  { estado := if es_tratamiento_aij then "Aprobada".toList else "Alerta".toList
    decision := decision
    analisis :=
      { farmaco := farmaco
        dosis_calculada :=
          match dosis_mg_kg with
          | none => "N/D".toList
          | some d => fmt0 (peso * d) ++ " mg".toList
        dosis_mg_kg_detectada := dosis_mg_kg
        frecuencia := frecuencia_texto
        frecuencia_horas := frecuencia_horas }
    auditoria := { es_aij := es_tratamiento_aij, razon := razon_decision } }

/-- `ejecutar_validacion_medica` as a function of the prescription text, the
patient weight and the evidence text the RAG returned (PASO 4 queries an
external store; the string it hands back is this parameter).  On the
successful path the tool's JSON is parsed back and, when an absolute dose
was found without a per-kg dose, `analisis["dosis_absoluta_mg"]` is added
(lines 324-348). -/
def ejecutarValidacionMedica (texto : List Char) (peso : ℚ)
    (evidencia : List Char) : ResultadoJson :=
  let e := extraerCampos texto
  let d := decidir e.farmaco e.dosis_mg_kg e.dosis_absoluta peso evidencia
  let res := procesarReceta e.farmaco peso e.dosis_mg_kg e.frecuencia_texto
    e.frecuencia_horas d.es_aij d.razon d.decision
  if pyTruthy e.dosis_absoluta && !(pyTruthy e.dosis_mg_kg) then
    { res with analisis := { res.analisis with dosis_absoluta_mg := e.dosis_absoluta } }
  else res

/-! ## `AgenteAuditor.validar_pauta` (auditor.py lines 127-137) -/

/-- Leftmost index of a character, as `str.find` (`-1` when absent). -/
def pyFindAux (c : Char) : List Char → Option Nat
  | [] => none
  | x :: xs => if x = c then some 0 else (pyFindAux c xs).map (· + 1)

/-- Python `str.find`. -/
def pyFind (l : List Char) (c : Char) : Int :=
  match pyFindAux c l with
  | some i => (i : Int)
  | none => -1

/-- Python `str.rfind`. -/
def pyRFind (l : List Char) (c : Char) : Int :=
  match pyFindAux c l.reverse with
  | some i => (l.length : Int) - 1 - (i : Int)
  | none => -1

/-- One bound of a Python slice: negative indices count from the end, then
clamp to `[0, len]`. -/
def pySliceIdx (len : Nat) (i : Int) : Nat :=
  if i < 0 then (if i + len < 0 then 0 else (i + len).toNat)
  else min i.toNat len

/-- Python `l[a:b]`. -/
def pySlice (l : List Char) (a b : Int) : List Char :=
  (l.take (pySliceIdx l.length b)).drop (pySliceIdx l.length a)

/-- Lines 132-134: `respuesta[respuesta.find("{") : respuesta.rfind("}") + 1]`. -/
def extractJson (l : List Char) : List Char :=
  pySlice l (pyFind l '{') (pyRFind l '}' + 1)

/-- The error dictionary of line 137. -/
structure ErrorAuditor where
  aprobado : Bool
  alertas : List (List Char)
  debug : List Char
  deriving DecidableEq

/-- `{"aprobado": False, "alertas": ["Error técnico"], "debug": str(e)}`. -/
def errorTecnico (dbg : List Char) : ErrorAuditor :=
  { aprobado := false, alertas := ["Error técnico".toList], debug := dbg }

/-- What `validar_pauta` returns: the parsed JSON object, or the error
dictionary when any step of the try-block failed. -/
inductive ResultadoAuditor (α : Type) where
  | ok (v : α)
  | err (e : ErrorAuditor)
  deriving DecidableEq

/-- Lines 129-137.  The LLM call and `json.loads` are external: the
completion is `none` when `self.llm.invoke` raised, and `parse` stands for
`json.loads` (`none` = `JSONDecodeError`).  Every failure is caught and
mapped to the error dictionary; nothing propagates to the caller. -/
def validarPauta {α : Type} (parse : List Char → Option α)
    (respuesta : Option (List Char)) : ResultadoAuditor α :=
  match respuesta with
  | none => .err (errorTecnico "invoke".toList)
  | some r =>
    match parse (extractJson r) with
    | some v => .ok v
    | none => .err (errorTecnico "JSONDecodeError".toList)

/-! ## Definitions taken from the specification's words, for the refinement
claims that compare them with the source. -/

/-- Modelled from the claim C5's words: "per-kg dose times weight if both are
available; else per-m² dose times body surface area; else the absolute dose;
else null". -/
def doseCalcClaimC5 (dosePerKg doseByBSA doseAbsoluteMg : Option ℚ)
    (weightKg bsaM2 : Option ℚ) : Option ℚ :=
  match dosePerKg, weightKg with
  | some d, some w => some (d * w)
  | _, _ =>
    match doseByBSA, bsaM2 with
    | some d, some b => some (d * b)
    | _, _ => doseAbsoluteMg

/-- Modelled from the amended C5: per-kg dose times weight when both are
truthy, else the absolute dose when truthy, else null — no per-m² branch. -/
def doseCalcAmendedC5 (dosePerKg doseAbs : Option ℚ) (weight : ℚ) : Option ℚ :=
  match dosePerKg with
  | some d =>
    if d ≠ 0 ∧ weight ≠ 0 then some (d * weight)
    else match doseAbs with
      | some a => if a ≠ 0 then some a else none
      | none => none
  | none =>
    match doseAbs with
    | some a => if a ≠ 0 then some a else none
    | none => none

/-- Modelled from the claim C7's words: "an integer number of mg when the
computed dose has no fractional part, and one decimal place otherwise". -/
def fmtDoseClaimC7 (q : ℚ) : List Char :=
  if q.den = 1 then (toString q.num).toList ++ " mg".toList
  else
    (toString (roundHalfEven (q * 10) / 10)).toList ++
      '.' :: (toString (roundHalfEven (q * 10) % 10)).toList ++ " mg".toList

/-! ## Helper lemmas -/

/-- The post-processing of lines 338-348 only touches `analisis`; the
decision string survives untouched. -/
theorem ejecutar_decision_eq (texto evidencia : List Char) (peso : ℚ) :
    (ejecutarValidacionMedica texto peso evidencia).decision =
      (decidir (extraerCampos texto).farmaco (extraerCampos texto).dosis_mg_kg
          (extraerCampos texto).dosis_absoluta peso evidencia).decision := by
  unfold ejecutarValidacionMedica
  dsimp only
  split <;> rfl

/-- Likewise for the rationale carried in `auditoria`. -/
theorem ejecutar_razon_eq (texto evidencia : List Char) (peso : ℚ) :
    (ejecutarValidacionMedica texto peso evidencia).auditoria.razon =
      (decidir (extraerCampos texto).farmaco (extraerCampos texto).dosis_mg_kg
          (extraerCampos texto).dosis_absoluta peso evidencia).razon := by
  unfold ejecutarValidacionMedica
  dsimp only
  split <;> rfl

/-- Both no-threshold cases decide ALERTA. -/
theorem casosSinUmbral_decision (farmaco evidencia evLower : List Char) :
    (casosSinUmbral farmaco evidencia evLower).decision = "ALERTA".toList := by
  unfold casosSinUmbral
  split_ifs <;> rfl

/-- A matched contraindication short-circuits the whole decision. -/
theorem decidir_contra_eq (farmaco : List Char) (mk ab : Option ℚ) (peso : ℚ)
    (evidencia : List Char) (idx : Nat)
    (hc : buscarContra (lowerStr evidencia) = some idx) :
    decidir farmaco mk ab peso evidencia =
      { es_aij := false
        decision := "RECHAZADA".toList
        razon := "⚠️ ".toList ++ farmaco ++
          " contraindicado para AIJ según la guía. Evidencia: \x27...".toList ++
          sliceN evidencia (idx - 30) (idx + 100) ++ "...\x27".toList } := by
  unfold decidir
  dsimp only
  rw [hc]

/-- With no contraindication and a truthy extracted threshold, the decision
is the CASO 2 comparison. -/
theorem decidir_umbral_eq (farmaco : List Char) (mk ab : Option ℚ) (peso : ℚ)
    (evidencia : List Char) (dmax : ℚ) (tipo : List Char)
    (hc : buscarContra (lowerStr evidencia) = none)
    (hm : extraerDosisMax (lowerStr evidencia) = some (dmax, tipo))
    (hm0 : dmax ≠ 0) :
    decidir farmaco mk ab peso evidencia = casoUmbral farmaco dmax tipo mk ab peso := by
  unfold decidir
  dsimp only
  rw [hc, hm]
  simp [bne_iff_ne, hm0]

/-! ## Claim theorems -/

/-- C1 (amended): for every input where a (truthy) guideline maximum dose was
extracted and a (truthy) prescribed dose was computed, a prescribed dose
greater than or equal to the maximum — in particular one exactly equal to
it — always yields decision RECHAZADA (never ALERTA, never APROBADA); a
prescribed dose strictly below the maximum yields APROBADA provided no
contraindication pattern matched the evidence. -/
theorem C1_comparacion_umbral (texto evidencia : List Char) (peso dmax dp : ℚ)
    (tipo : List Char)
    (hm : extraerDosisMax (lowerStr evidencia) = some (dmax, tipo))
    (hm0 : dmax ≠ 0)
    (hd : dosisPrescrita (extraerCampos texto).dosis_mg_kg
        (extraerCampos texto).dosis_absoluta peso = some dp)
    (hd0 : dp ≠ 0) :
    (dmax ≤ dp →
      (ejecutarValidacionMedica texto peso evidencia).decision = "RECHAZADA".toList) ∧
    (buscarContra (lowerStr evidencia) = none → dp < dmax →
      (ejecutarValidacionMedica texto peso evidencia).decision = "APROBADA".toList) := by
  constructor
  · intro hle
    rw [ejecutar_decision_eq]
    rcases hcon : buscarContra (lowerStr evidencia) with _ | idx
    · rw [decidir_umbral_eq _ _ _ _ _ _ _ hcon hm hm0]
      unfold casoUmbral
      rw [hd]
      simp [bne_iff_ne, hd0, hle]
    · rw [decidir_contra_eq _ _ _ _ _ _ hcon]
  · intro hcon hlt
    rw [ejecutar_decision_eq, decidir_umbral_eq _ _ _ _ _ _ _ hcon hm hm0]
    unfold casoUmbral
    rw [hd]
    simp [bne_iff_ne, hd0, not_le.2 hlt]

/-- C1 witness: a prescribed dose of exactly 25 mg against a 25 mg guideline
maximum is RECHAZADA. -/
theorem C1_comparacion_umbral_witness :
    (ejecutarValidacionMedica "Metotrexato 25 mg semanal".toList 30
      "dosis maxima de 25 mg".toList).decision = "RECHAZADA".toList :=
  (C1_comparacion_umbral "Metotrexato 25 mg semanal".toList
      "dosis maxima de 25 mg".toList 30 25 25 "semanal".toList
      (by with_unfolding_all decide) (by norm_num)
      (by with_unfolding_all decide) (by norm_num)).1 (le_refl 25)

/-- C1 counterexample: evidence carrying both a contraindication and a 25 mg
threshold; the prescribed 10 mg is strictly below the maximum, yet the
decision is RECHAZADA, not APROBADA as the claim demands. -/
theorem C1_contraejemplo :
    extraerDosisMax (lowerStr "contraindicado en niños. dosis maxima de 25 mg".toList) =
        some (25, "semanal".toList) ∧
    dosisPrescrita (extraerCampos "Metotrexato 10 mg semanal".toList).dosis_mg_kg
        (extraerCampos "Metotrexato 10 mg semanal".toList).dosis_absoluta 30 = some 10 ∧
    (10 : ℚ) < 25 ∧
    (ejecutarValidacionMedica "Metotrexato 10 mg semanal".toList 30
        "contraindicado en niños. dosis maxima de 25 mg".toList).decision ≠
      "APROBADA".toList := by
  with_unfolding_all decide

/-- C2: whenever the evidence matches a contraindication pattern, the decision
is RECHAZADA regardless of any dose or threshold, and the rationale quotes
the window of the evidence from 30 characters before to 100 characters after
the match position. -/
theorem C2_contraindicacion (texto evidencia : List Char) (peso : ℚ) (idx : Nat)
    (hc : buscarContra (lowerStr evidencia) = some idx) :
    (ejecutarValidacionMedica texto peso evidencia).decision = "RECHAZADA".toList ∧
    sliceN evidencia (idx - 30) (idx + 100) <:+:
      (ejecutarValidacionMedica texto peso evidencia).auditoria.razon := by
  rw [ejecutar_decision_eq, ejecutar_razon_eq, decidir_contra_eq _ _ _ _ _ _ hc]
  refine ⟨rfl, ?_⟩
  exact ⟨"⚠️ ".toList ++ (extraerCampos texto).farmaco ++
      " contraindicado para AIJ según la guía. Evidencia: \x27...".toList,
    "...\x27".toList, by simp [List.append_assoc]⟩

/-- C2 witness: a concrete contraindication match at index 18, rejected with
the quoted window. -/
theorem C2_contraindicacion_witness :
    (ejecutarValidacionMedica "Ibuprofeno 10 mg".toList 30
      "este farmaco esta contraindicado en niños pequeños".toList).decision =
        "RECHAZADA".toList ∧
    sliceN "este farmaco esta contraindicado en niños pequeños".toList (18 - 30)
        (18 + 100) <:+:
      (ejecutarValidacionMedica "Ibuprofeno 10 mg".toList 30
        "este farmaco esta contraindicado en niños pequeños".toList).auditoria.razon :=
  C2_contraindicacion "Ibuprofeno 10 mg".toList
    "este farmaco esta contraindicado en niños pequeños".toList 30 18
    (by with_unfolding_all decide)

/-- C3: when the first threshold pattern to match the evidence is the range
pattern `N-M mg/semana`, the extracted maximum is the upper bound, classified
as a weekly limit. -/
theorem C3_rango_toma_cota_superior (ev : List Char) (i : Nat) (lo hi : ℚ)
    (h1 : search matchP1At ev = none) (h2 : search matchP2At ev = none)
    (h3 : search matchP3At ev = none) (h4 : search matchP4At ev = none)
    (h5 : search matchP5At ev = none) (h6 : search matchP6At ev = none)
    (h7 : search matchP7At ev = none) (h8 : search matchP8At ev = none)
    (h9 : search matchP9At ev = some (i, [lo, hi])) :
    extraerDosisMax ev = some (hi, "semanal".toList) := by
  unfold extraerDosisMax patronesDosisMax
  simp [extraerDosisMaxAux, h1, h2, h3, h4, h5, h6, h7, h8, h9]

/-- C3 witness: evidence `10-20 mg/semana` yields a maximum of 20 mg, weekly. -/
theorem C3_rango_toma_cota_superior_witness :
    extraerDosisMax "10-20 mg/semana".toList = some (20, "semanal".toList) :=
  C3_rango_toma_cota_superior "10-20 mg/semana".toList 0 10 20
    (by with_unfolding_all decide) (by with_unfolding_all decide)
    (by with_unfolding_all decide) (by with_unfolding_all decide)
    (by with_unfolding_all decide) (by with_unfolding_all decide)
    (by with_unfolding_all decide) (by with_unfolding_all decide)
    (by with_unfolding_all decide)

/-- With no contraindication, no extracted threshold means `casosSinUmbral`. -/
theorem decidir_casos34_eq (farmaco : List Char) (mk ab : Option ℚ) (peso : ℚ)
    (evidencia : List Char)
    (hc : buscarContra (lowerStr evidencia) = none)
    (hm : extraerDosisMax (lowerStr evidencia) = none) :
    decidir farmaco mk ab peso evidencia =
      casosSinUmbral farmaco evidencia (lowerStr evidencia) := by
  unfold decidir
  dsimp only
  rw [hc, hm]

/-- A threshold of value `0.0` is falsy in Python, so it also falls through
to `casosSinUmbral`. -/
theorem decidir_casos34_cero_eq (farmaco : List Char) (mk ab : Option ℚ) (peso : ℚ)
    (evidencia tipo : List Char)
    (hc : buscarContra (lowerStr evidencia) = none)
    (hm : extraerDosisMax (lowerStr evidencia) = some (0, tipo)) :
    decidir farmaco mk ab peso evidencia =
      casosSinUmbral farmaco evidencia (lowerStr evidencia) := by
  unfold decidir
  dsimp only
  rw [hc, hm]
  simp

/-- With no contraindication and no computable prescribed dose, every branch
of the decision decides ALERTA. -/
theorem decidir_alerta_sin_dosis (farmaco : List Char) (mk ab : Option ℚ) (peso : ℚ)
    (evidencia : List Char)
    (hc : buscarContra (lowerStr evidencia) = none)
    (hd : dosisPrescrita mk ab peso = none) :
    (decidir farmaco mk ab peso evidencia).decision = "ALERTA".toList := by
  rcases hm : extraerDosisMax (lowerStr evidencia) with _ | ⟨dmax, tipo⟩
  · rw [decidir_casos34_eq _ _ _ _ _ hc hm, casosSinUmbral_decision]
  · by_cases h0 : dmax = 0
    · subst h0
      rw [decidir_casos34_cero_eq _ _ _ _ _ _ hc hm, casosSinUmbral_decision]
    · rw [decidir_umbral_eq _ _ _ _ _ _ _ hc hm h0]
      unfold casoUmbral
      rw [hd]
      rfl

/-- C4 (amended): a per-kg dose extracted but the weight zero or absent and no
absolute dose present: the calculated dose is null — never a zero dose — the
embedded function is total, and, provided no contraindication pattern matches
the evidence, the decision is ALERTA rather than APROBADA or RECHAZADA. -/
theorem C4_peso_ausente (texto evidencia : List Char) (d : ℚ)
    (hk : (extraerCampos texto).dosis_mg_kg = some d)
    (ha : (extraerCampos texto).dosis_absoluta = none)
    (hc : buscarContra (lowerStr evidencia) = none) :
    dosisCalculada (extraerCampos texto).dosis_mg_kg
        (extraerCampos texto).dosis_absoluta 0 = none ∧
    (ejecutarValidacionMedica texto 0 evidencia).decision = "ALERTA".toList := by
  have hnone : dosisPrescrita (extraerCampos texto).dosis_mg_kg
      (extraerCampos texto).dosis_absoluta 0 = none := by
    rw [hk, ha]
    simp [dosisPrescrita, pyTruthy]
  refine ⟨hnone, ?_⟩
  rw [ejecutar_decision_eq]
  exact decidir_alerta_sin_dosis _ _ _ _ _ hc hnone

/-- C4 witness: `0.5 mg/kg` with weight 0 and no-match evidence. -/
theorem C4_peso_ausente_witness :
    dosisCalculada (extraerCampos "Metotrexato 0.5 mg/kg semanal".toList).dosis_mg_kg
        (extraerCampos "Metotrexato 0.5 mg/kg semanal".toList).dosis_absoluta 0 = none ∧
    (ejecutarValidacionMedica "Metotrexato 0.5 mg/kg semanal".toList 0
      "no se encontró información".toList).decision = "ALERTA".toList :=
  C4_peso_ausente "Metotrexato 0.5 mg/kg semanal".toList
    "no se encontró información".toList (1/2)
    (by with_unfolding_all decide) (by with_unfolding_all decide)
    (by with_unfolding_all decide)

/-- C4 counterexample: with the same missing weight but evidence matching a
contraindication pattern, the calculated dose is still null yet the decision
is RECHAZADA, not the ALERTA the claim demands for every such input. -/
theorem C4_contraejemplo :
    (extraerCampos "Metotrexato 0.5 mg/kg semanal".toList).dosis_mg_kg = some (1/2) ∧
    (extraerCampos "Metotrexato 0.5 mg/kg semanal".toList).dosis_absoluta = none ∧
    dosisCalculada (some (1/2)) none 0 = none ∧
    (ejecutarValidacionMedica "Metotrexato 0.5 mg/kg semanal".toList 0
        "uso contraindicado en artritis juvenil".toList).decision = "RECHAZADA".toList ∧
    "RECHAZADA".toList ≠ "ALERTA".toList := by
  with_unfolding_all decide

/-- C5 (amended): the calculator computes per-kg dose times weight when both
are truthy, else the truthy absolute dose, else null; it has no per-m²/BSA
branch at all. -/
theorem C5_precedencia_calculo (mk ab : Option ℚ) (peso : ℚ) :
    dosisCalculada mk ab peso = doseCalcAmendedC5 mk ab peso := by
  rcases mk with _ | d <;> rcases ab with _ | a <;>
    simp only [dosisCalculada, dosisPrescrita, doseCalcAmendedC5, pyTruthy,
      Bool.false_and, Bool.and_eq_true, bne_iff_ne, ne_eq, Option.map_some,
      if_false, Bool.false_eq_true, decide_eq_true_eq] <;>
    split_ifs <;> simp_all

/-- C5 counterexample: a per-m² prescription (`10 mg/m2`, BSA 0.8 m²).  The
claim's calculator (with its per-m² branch) yields 8 mg, but the code's
calculator has no such branch: the `10 mg` is captured by the absolute-dose
pattern and the computed dose is 10 mg. -/
theorem C5_contraejemplo :
    (extraerCampos "Metotrexato 10 mg/m2 semanal".toList).dosis_mg_kg = none ∧
    (extraerCampos "Metotrexato 10 mg/m2 semanal".toList).dosis_absoluta = some 10 ∧
    dosisCalculada none (some 10) 25 = some 10 ∧
    doseCalcClaimC5 none (some 10) (some 10) (some 25) (some (4/5)) = some 8 ∧
    some (10 : ℚ) ≠ some (8 : ℚ) := by
  with_unfolding_all decide

/-- A successful word-fallback match is a run of at least four letters. -/
theorem matchWordAt_spec (prev : Option Char) (s w : List Char)
    (h : matchWordAt prev s = some w) :
    4 ≤ w.length ∧ w.all isLetterES = true := by
  unfold matchWordAt at h
  dsimp only at h
  revert h
  split_ifs with hcond
  · intro h
    injection h with h
    subst h
    refine ⟨?_, ?_⟩
    · have hc2 := hcond
      simp only [Bool.and_eq_true, decide_eq_true_eq] at hc2
      exact hc2.1.2
    · exact List.all_eq_true.2 fun c hc => List.mem_takeWhile_imp hc
  · intro h
    cases h

/-- The scan only ever returns what an anchored attempt produced. -/
theorem searchWordAux_spec (prev : Option Char) (l w : List Char)
    (h : searchWordAux prev l = some w) :
    4 ≤ w.length ∧ w.all isLetterES = true := by
  induction l generalizing prev with
  | nil => cases h
  | cons c t ih =>
    rw [searchWordAux] at h
    revert h
    cases hm : matchWordAt prev (c :: t) with
    | some w2 =>
      intro h
      injection h with h
      subst h
      exact matchWordAt_spec _ _ _ hm
    | none => exact ih (some c)

/-- C6 (amended): when no curated substance name occurs in the lower-cased
text, the drug falls back to the first word of at least four letters —
whatever its capitalisation in the input — rendered by `str.capitalize`, and
to `Desconocido` when no such word exists. -/
theorem C6_fallback_primera_palabra (texto : List Char)
    (hno : ∀ f ∈ farmacosConocidos, hasInfix f.toList (lowerStr texto) = false) :
    (firstLongWord texto = none → extraerFarmaco texto = "Desconocido".toList) ∧
    ∀ w, firstLongWord texto = some w →
      extraerFarmaco texto = capitalizeStr w ∧ 4 ≤ w.length ∧ w.all isLetterES = true := by
  have hfind : farmacosConocidos.find? (fun f => hasInfix f.toList (lowerStr texto)) = none := by
    rw [List.find?_eq_none]
    intro f hf
    simp only [Bool.not_eq_true]
    exact hno f hf
  constructor
  · intro hw
    unfold extraerFarmaco
    dsimp only
    rw [hfind, hw]
  · intro w hw
    refine ⟨?_, searchWordAux_spec none texto w hw⟩
    unfold extraerFarmaco
    dsimp only
    rw [hfind, hw]

/-- C6 witness: `tomar reposo` has no curated drug and no capital letter, yet
the fallback fires on `tomar` and capitalises it. -/
theorem C6_fallback_primera_palabra_witness :
    extraerFarmaco "tomar reposo".toList = capitalizeStr "tomar".toList ∧
    4 ≤ "tomar".toList.length ∧ "tomar".toList.all isLetterES = true :=
  (C6_fallback_primera_palabra "tomar reposo".toList
      (by with_unfolding_all decide)).2 "tomar".toList (by with_unfolding_all decide)

/-- C6 counterexample: the input `tomar reposo` contains no known substance
and no capitalized word at all, so under the claim the drug should be
`Desconocido`; the code instead returns `Tomar`, capitalising the first
lower-case word of four or more letters. -/
theorem C6_contraejemplo :
    extraerFarmaco "tomar reposo".toList = "Tomar".toList ∧
    "Tomar".toList ≠ "Desconocido".toList ∧
    (∀ f ∈ farmacosConocidos, hasInfix f.toList (lowerStr "tomar reposo".toList) = false) ∧
    ∀ c ∈ "tomar reposo".toList, ¬('A' ≤ c ∧ c ≤ 'Z') := by
  with_unfolding_all decide

/-- The rounding used for `f"{x:.0f}"` lands within half a unit. -/
theorem roundHalfEven_close (q : ℚ) : |q - (roundHalfEven q : ℚ)| ≤ 1/2 := by
  unfold roundHalfEven
  have h0 : (⌊q⌋ : ℚ) ≤ q := Int.floor_le q
  have h1 : q < ⌊q⌋ + 1 := Int.lt_floor_add_one q
  dsimp only
  split_ifs with hlt hgt heven
  · rw [abs_of_nonneg (by linarith)]
    linarith
  · rw [abs_of_nonpos (by push_cast; linarith)]
    push_cast
    linarith
  · rw [abs_of_nonneg (by linarith)]
    linarith
  · rw [abs_of_nonpos (by push_cast; linarith)]
    push_cast
    linarith

/-- C7 (amended): whenever a per-kg dose is present the structurer renders the
computed dose rounded to the nearest whole number of mg (`%.0f`, ties to
even) — never with one decimal place — and `N/D` when it is absent. -/
theorem C7_formato_dosis (farmaco : List Char) (peso d : ℚ) (ft : List Char)
    (fh : Option Nat) (aij : Bool) (razon dec : List Char) :
    (procesarReceta farmaco peso (some d) ft fh aij razon dec).analisis.dosis_calculada =
      (toString (roundHalfEven (peso * d))).toList ++ " mg".toList ∧
    |peso * d - (roundHalfEven (peso * d) : ℚ)| ≤ 1/2 ∧
    (procesarReceta farmaco peso none ft fh aij razon dec).analisis.dosis_calculada =
      "N/D".toList :=
  ⟨rfl, roundHalfEven_close (peso * d), rfl⟩

/-- C7 counterexample: a computed dose of 12.5 mg (0.5 mg/kg × 25 kg).  The
claim's formatting shows `12.5 mg` (one decimal place since the value has a
fractional part); the structurer instead always applies `%.0f` and renders
`12 mg`. -/
theorem C7_contraejemplo :
    (procesarReceta "Metotrexato".toList 25 (some (1/2)) [] none true []
        "ALERTA".toList).analisis.dosis_calculada = "12 mg".toList ∧
    fmtDoseClaimC7 (25 * (1/2)) = "12.5 mg".toList ∧
    "12 mg".toList ≠ "12.5 mg".toList := by
  with_unfolding_all decide

/-- `str.find` on a string whose first occurrence of `c` ends the prefix `a`. -/
theorem pyFindAux_append (c : Char) (a rest : List Char) (ha : c ∉ a) :
    pyFindAux c (a ++ c :: rest) = some a.length := by
  induction a with
  | nil => simp [pyFindAux]
  | cons x xs ih =>
    have hx : ¬x = c := fun h => ha (by simp [h])
    have hxs : c ∉ xs := fun h => ha (List.mem_cons_of_mem _ h)
    simp [pyFindAux, hx, ih hxs]

/-- A Python slice that selects exactly the middle block of a three-way
concatenation. -/
theorem pySlice_mid (a mid c : List Char) :
    pySlice ((a ++ mid) ++ c) (a.length : Int) ((a.length : Int) + mid.length) = mid := by
  have hlen : ((a ++ mid) ++ c).length = a.length + mid.length + c.length := by
    rw [List.length_append, List.length_append]
  have ha2 : pySliceIdx ((a ++ mid) ++ c).length (a.length : Int) = a.length := by
    unfold pySliceIdx
    rw [if_neg (by omega), hlen]
    omega
  have hb2 : pySliceIdx ((a ++ mid) ++ c).length ((a.length : Int) + mid.length)
      = a.length + mid.length := by
    unfold pySliceIdx
    rw [if_neg (by omega), hlen]
    omega
  unfold pySlice
  rw [ha2, hb2]
  rw [List.take_left' (by simp : (a ++ mid).length = a.length + mid.length)]
  exact List.drop_left a mid

/-- The auditor's brace slicing: with no `{` in the prefix and no `}` in the
suffix, exactly the block from the first `{` to the last `}` is selected. -/
theorem extractJson_decomp (a b c : List Char) (ha : '{' ∉ a) (hc : '}' ∉ c) :
    extractJson (a ++ '{' :: b ++ '}' :: c) = '{' :: b ++ ['}'] := by
  have hassoc : a ++ '{' :: b ++ '}' :: c = a ++ '{' :: (b ++ '}' :: c) := by
    simp
  rw [hassoc]
  have hfind : pyFind (a ++ '{' :: (b ++ '}' :: c)) '{' = (a.length : Int) := by
    unfold pyFind
    rw [pyFindAux_append '{' a (b ++ '}' :: c) ha]
  have hrev : (a ++ '{' :: (b ++ '}' :: c)).reverse
      = c.reverse ++ '}' :: (b.reverse ++ '{' :: a.reverse) := by
    simp
  have hcr : '}' ∉ c.reverse := fun h => hc (List.mem_reverse.1 h)
  have hlen : (a ++ '{' :: (b ++ '}' :: c)).length
      = a.length + b.length + c.length + 2 := by
    simp
    omega
  have hrfind : pyRFind (a ++ '{' :: (b ++ '}' :: c)) '}'
      = (a.length : Int) + b.length + 1 := by
    unfold pyRFind
    rw [hrev, pyFindAux_append '}' c.reverse (b.reverse ++ '{' :: a.reverse) hcr]
    rw [hlen]
    simp only [List.length_reverse]
    push_cast
    ring
  unfold extractJson
  rw [hfind, hrfind]
  have hb : (a.length : Int) + b.length + 1 + 1
      = (a.length : Int) + ('{' :: b ++ ['}']).length := by
    simp only [List.length_append, List.length_cons, List.length_nil]
    push_cast
    ring
  have hshape : a ++ '{' :: (b ++ '}' :: c) = (a ++ ('{' :: b ++ ['}'])) ++ c := by
    simp
  rw [hb, hshape]
  exact pySlice_mid a ('{' :: b ++ ['}']) c

/-- C8: the LLM-augmented validator parses exactly the substring from the
first `{` to the last `}` of the completion text, and a parse failure is
returned as the structured error result carrying `aprobado = false`; the
embedded function is total, so no failure escapes to the caller. -/
theorem C8_extraccion_json {α : Type} (parse : List Char → Option α)
    (a b c : List Char) (ha : '{' ∉ a) (hc : '}' ∉ c) :
    extractJson (a ++ '{' :: b ++ '}' :: c) = '{' :: b ++ ['}'] ∧
    validarPauta parse (some (a ++ '{' :: b ++ '}' :: c)) =
      (match parse ('{' :: b ++ ['}']) with
       | some v => ResultadoAuditor.ok v
       | none => ResultadoAuditor.err (errorTecnico "JSONDecodeError".toList)) ∧
    ∀ r : List Char, parse (extractJson r) = none →
      validarPauta parse (some r) =
        ResultadoAuditor.err (errorTecnico "JSONDecodeError".toList) ∧
      (errorTecnico "JSONDecodeError".toList).aprobado = false := by
  have hx := extractJson_decomp a b c ha hc
  refine ⟨hx, ?_, ?_⟩
  · unfold validarPauta
    dsimp only
    rw [hx]
  · intro r hr
    unfold validarPauta
    dsimp only
    rw [hr]
    exact ⟨rfl, rfl⟩

/-- C8 witness: a completion with noise around the braces and a parser that
rejects, yielding the `aprobado = false` error result. -/
theorem C8_extraccion_json_witness :
    validarPauta (fun _ : List Char => (none : Option Nat))
        (some ("x".toList ++ '{' :: "1".toList ++ '}' :: "y".toList)) =
      ResultadoAuditor.err (errorTecnico "JSONDecodeError".toList) ∧
    (errorTecnico "JSONDecodeError".toList).aprobado = false :=
  (C8_extraccion_json (fun _ => none) "x".toList "1".toList "y".toList
      (by decide) (by decide)).2.2
    ("x".toList ++ '{' :: "1".toList ++ '}' :: "y".toList) rfl

/-- C9: APROBADA is produced only on the path where no contraindication
matched, a truthy guideline maximum was extracted, and a truthy prescribed
dose strictly below that maximum was computed; every other path decides
ALERTA or RECHAZADA, so the initial default never survives unexamined. -/
theorem C9_aprobada_solo_por_umbral (texto evidencia : List Char) (peso : ℚ)
    (h : (ejecutarValidacionMedica texto peso evidencia).decision = "APROBADA".toList) :
    buscarContra (lowerStr evidencia) = none ∧
    ∃ dmax tipo, extraerDosisMax (lowerStr evidencia) = some (dmax, tipo) ∧ dmax ≠ 0 ∧
      ∃ dp, dosisPrescrita (extraerCampos texto).dosis_mg_kg
          (extraerCampos texto).dosis_absoluta peso = some dp ∧ dp ≠ 0 ∧ dp < dmax := by
  rw [ejecutar_decision_eq] at h
  rcases hcon : buscarContra (lowerStr evidencia) with _ | idx
  · refine ⟨rfl, ?_⟩
    rcases hm : extraerDosisMax (lowerStr evidencia) with _ | ⟨dmax, tipo⟩
    · rw [decidir_casos34_eq _ _ _ _ _ hcon hm, casosSinUmbral_decision] at h
      exact absurd h (by decide)
    · by_cases h0 : dmax = 0
      · subst h0
        rw [decidir_casos34_cero_eq _ _ _ _ _ _ hcon hm, casosSinUmbral_decision] at h
        exact absurd h (by decide)
      · rw [decidir_umbral_eq _ _ _ _ _ _ _ hcon hm h0] at h
        unfold casoUmbral at h
        rcases hd : dosisPrescrita (extraerCampos texto).dosis_mg_kg
            (extraerCampos texto).dosis_absoluta peso with _ | dp
        · rw [hd] at h
          dsimp only [alertaNoVerificada] at h
          exact absurd h (by decide)
        · rw [hd] at h
          dsimp only at h
          by_cases hd0 : dp = 0
          · subst hd0
            rw [if_neg (by simp)] at h
            dsimp only [alertaNoVerificada] at h
            exact absurd h (by decide)
          · rw [if_pos (by simp [bne_iff_ne, hd0])] at h
            by_cases hle : dmax ≤ dp
            · rw [if_pos hle] at h
              dsimp only at h
              exact absurd h (by decide)
            · exact ⟨dmax, tipo, rfl, h0, dp, rfl, hd0, not_le.1 hle⟩
  · rw [decidir_contra_eq _ _ _ _ _ _ hcon] at h
    dsimp only at h
    exact absurd h (by decide)

/-- C9 witness: an approved run, exhibiting the threshold, the dose and the
strict comparison on its path. -/
theorem C9_aprobada_solo_por_umbral_witness :
    buscarContra (lowerStr "dosis maxima de 25 mg".toList) = none ∧
    ∃ dmax tipo,
      extraerDosisMax (lowerStr "dosis maxima de 25 mg".toList) = some (dmax, tipo) ∧
      dmax ≠ 0 ∧
      ∃ dp, dosisPrescrita
          (extraerCampos "Metotrexato 10 mg semanal".toList).dosis_mg_kg
          (extraerCampos "Metotrexato 10 mg semanal".toList).dosis_absoluta 25 = some dp ∧
        dp ≠ 0 ∧ dp < dmax :=
  C9_aprobada_solo_por_umbral "Metotrexato 10 mg semanal".toList
    "dosis maxima de 25 mg".toList 25 (by with_unfolding_all decide)

/-- C10: the structurer's top-level `estado` is `Aprobada` exactly when
`es_tratamiento_aij` is true and `Alerta` otherwise; it never takes the
value `Rechazada`, whatever `decision` string — including `RECHAZADA` — is
passed alongside. -/
theorem C10_estado_estructurador (farmaco : List Char) (peso : ℚ) (mk : Option ℚ)
    (ft : List Char) (fh : Option Nat) (aij : Bool) (razon dec : List Char) :
    ((procesarReceta farmaco peso mk ft fh aij razon dec).estado =
        if aij then "Aprobada".toList else "Alerta".toList) ∧
    ((procesarReceta farmaco peso mk ft fh aij razon dec).estado = "Aprobada".toList ↔
      aij = true) ∧
    (procesarReceta farmaco peso mk ft fh aij razon dec).estado ≠ "Rechazada".toList := by
  cases aij
  · exact ⟨rfl, show "Alerta".toList = "Aprobada".toList ↔ false = true from by decide,
      show "Alerta".toList ≠ "Rechazada".toList from by decide⟩
  · exact ⟨rfl, show "Aprobada".toList = "Aprobada".toList ↔ true = true from by decide,
      show "Aprobada".toList ≠ "Rechazada".toList from by decide⟩

end JIA
